import Mathlib

/-!
Verification development for the SVLAccounting server (src/server.js).

The server stores two Mongo collections: `journalentries` (documents with a
unique integer `trans_id` plus date/description/attachments/lines) and
`accounts` (documents with a `number`, name, description, type).  We embed
each collection as a Lean list of structures, the Mongo `_id` as a `String`,
and each Express route handler as a pure function from the request data and
the current collection state to a result record carrying the HTTP status,
the response payload relevant to the claims, and the new collection state.
Fallible store operations (the allocator query and the insert inside the
`POST /journal` try/catch) are represented by `Option String` error
parameters: `some msg` means the corresponding driver call throws an error
whose `message` is `msg`, which the handler's catch block turns into a 500
response carrying the raw message.
-/

/-- One attachment of a journal entry (entrySchema.attachments). -/
structure Attachment where
  name : String
  url : String
  type : String
  mimeType : String
deriving DecidableEq, Repr

/-- One debit/credit line of a journal entry (entrySchema.lines). -/
structure EntryLine where
  account_no : Int
  account_name : String
  account_ref : Option String
  debit : Int
  credit : Int
deriving DecidableEq, Repr

/-- A stored journal-entry document (entrySchema).  `_id` is the Mongo
storage identifier; `trans_id` is the allocator-assigned integer id. -/
structure JournalEntry where
  _id : String
  trans_id : Int
  date : String
  description : String
  attachments : List Attachment
  lines : List EntryLine
deriving DecidableEq, Repr

/-- A stored account document (accountSchema). -/
structure Account where
  _id : String
  number : Int
  name : String
  description : Option String
  type : Option String
deriving DecidableEq, Repr

/-- The request body of POST/PUT /journal after express-validator has checked
it (description, date and lines are required by the validators; attachments
and trans_id may or may not be present in the JSON body). -/
structure EntryBody where
  description : String
  date : String
  lines : List EntryLine
  attachments : Option (List Attachment)
  trans_id : Option Int
deriving DecidableEq, Repr

/-- The request body of POST/PUT /accounts after validation (number and name
are required by the validators; description and type are optional). -/
structure AccountBody where
  number : Int
  name : String
  description : Option String
  type : Option String
deriving DecidableEq, Repr

/-- The trans_id of the entry returned by
`JournalEntry.findOne().sort({ trans_id: -1 })`: the maximum `trans_id`
present in the collection, or `none` when the collection is empty. -/
def maxTid : List JournalEntry → Option Int
  | [] => none
  | e :: es =>
    match maxTid es with
    | none => some e.trans_id
    | some m => some (max e.trans_id m)

/-- `getNextTid` from src/server.js: query the entry with the maximum
`trans_id`; return `lastEntry ? lastEntry.trans_id + 1 : 1`. -/
def getNextTid (entries : List JournalEntry) : Int :=
  match maxTid entries with
  | none => 1
  | some m => m + 1

/-- `new JournalEntry({ ...req.body, trans_id })`: the document built by the
POST /journal handler.  The spread places the body fields first, then the
allocated `trans_id` overrides any `trans_id` the body carried; absent
attachments default to the schema default `[]`. -/
def mkEntry (oid : String) (b : EntryBody) (tid : Int) : JournalEntry :=
  { _id := oid, trans_id := tid, date := b.date, description := b.description,
    attachments := b.attachments.getD [], lines := b.lines }

/-- Result of the POST /journal handler: HTTP status, error message of the
response body (if any), the collection after the request, the allocated
trans_id on success, and how many times the allocator query and the insert
were attempted. -/
structure PostJournalResult where
  status : Nat
  body : Option String
  entries : List JournalEntry
  tid : Option Int
  allocAttempts : Nat
  insertAttempts : Nat
deriving DecidableEq, Repr

/-- The POST /journal handler (src/server.js lines 144-162): reject invalid
bodies with 400; otherwise run `getNextTid` (whose driver query may throw
`queryErr`), build the entry and save it (the insert may throw `insertErr`,
e.g. a duplicate-key error from the unique index on `trans_id`); any thrown
error is caught once and answered with status 500 and the raw `err.message`.
No branch retries anything. -/
def postJournal (validBody : Bool) (queryErr insertErr : Option String)
    (b : EntryBody) (newId : String) (entries : List JournalEntry) :
    PostJournalResult :=
  if validBody = false then
    { status := 400, body := some "validation errors", entries := entries,
      tid := none, allocAttempts := 0, insertAttempts := 0 }
  else
    match queryErr with
    | some m =>
      { status := 500, body := some m, entries := entries,
        tid := none, allocAttempts := 1, insertAttempts := 0 }
    | none =>
      let tid := getNextTid entries
      match insertErr with
      | some m =>
        { status := 500, body := some m, entries := entries,
          tid := none, allocAttempts := 1, insertAttempts := 1 }
      | none =>
        { status := 200, body := none,
          entries := entries ++ [mkEntry newId b tid],
          tid := some tid, allocAttempts := 1, insertAttempts := 1 }

/-- The regex `/^[0-9a-fA-F]{24}$/` applied to one character. -/
def isHexChar (c : Char) : Bool :=
  (decide ('0' ≤ c) && decide (c ≤ '9')) ||
  (decide ('a' ≤ c) && decide (c ≤ 'f')) ||
  (decide ('A' ≤ c) && decide (c ≤ 'F'))

/-- `req.params.id.match(/^[0-9a-fA-F]{24}$/)` is non-null: the id is exactly
24 hexadecimal characters. -/
def isValidObjectId (s : String) : Bool :=
  s.length == 24 && s.toList.all isHexChar

/-- Result of the GET /journal/:id handler: the HTTP status and whether the
handler reached the storage query (`findById`). -/
structure GetByIdResult where
  status : Nat
  storageAccessed : Bool
deriving DecidableEq, Repr

/-- The GET /journal/:id handler (src/server.js lines 228-244): ids that fail
the 24-hex check are answered 400 before `findById` is called; otherwise the
entry is looked up by `_id`, answering 404 when absent and 200 when found. -/
def getJournalById (id : String) (entries : List JournalEntry) : GetByIdResult :=
  if isValidObjectId id = false then
    { status := 400, storageAccessed := false }
  else
    match entries.find? (fun e => e._id == id) with
    | none => { status := 404, storageAccessed := true }
    | some _ => { status := 200, storageAccessed := true }

/-- The DELETE /journal/:id handler (src/server.js lines 277-285).  Unlike
the GET/PUT handlers it has no 24-hex guard, so `findByIdAndDelete` first
casts the raw id to an ObjectId: a string that is not a well-formed storage
identifier (the code's own 24-hex notion) makes the driver throw a
CastError, which the catch (lines 282-284) answers with status 500.  A
well-formed id that matches no document is answered 404, a deletion 204. -/
def deleteJournal (id : String) (entries : List JournalEntry) :
    Nat × List JournalEntry :=
  if isValidObjectId id = false then
    (500, entries)
  else
    match entries.find? (fun e => e._id == id) with
    | none => (404, entries)
    | some _ => (204, entries.eraseP (fun e => e._id == id))

/-- The DELETE /accounts/:id handler (src/server.js lines 348-356), same
shape as the journal delete: a malformed id throws in the ObjectId cast and
is answered 500 by the catch (lines 353-355); a well-formed but absent id is
answered 404. -/
def deleteAccount (id : String) (accounts : List Account) :
    Nat × List Account :=
  if isValidObjectId id = false then
    (500, accounts)
  else
    match accounts.find? (fun a => a._id == id) with
    | none => (404, accounts)
    | some _ => (204, accounts.eraseP (fun a => a._id == id))

/-- The account document built by POST /accounts (`new Account(req.body)`). -/
def mkAccount (oid : String) (b : AccountBody) : Account :=
  { _id := oid, number := b.number, name := b.name,
    description := b.description, type := b.type }

/-- Result of the account mutation handlers: HTTP status, error message of
the response (if any), and the collection after the request. -/
structure AccountsResult where
  status : Nat
  msg : Option String
  accounts : List Account
deriving DecidableEq, Repr

/-- The POST /accounts handler (src/server.js lines 288-309): reject invalid
bodies with 400; if `Account.findOne({ number: req.body.number })` finds an
existing account, answer 400 "Account number already exists" without
inserting; otherwise insert and answer 200. -/
def postAccounts (validBody : Bool) (b : AccountBody) (newId : String)
    (accounts : List Account) : AccountsResult :=
  if validBody = false then
    { status := 400, msg := some "validation errors", accounts := accounts }
  else
    match accounts.find? (fun a => a.number == b.number) with
    | some _ =>
      { status := 400, msg := some "Account number already exists",
        accounts := accounts }
    | none =>
      { status := 200, msg := none, accounts := accounts ++ [mkAccount newId b] }

/-- `findByIdAndUpdate(id, req.body)` on an account: a `$set` of the body's
fields onto the stored document (fields absent from the body are kept). -/
def applyAccountUpdate (a : Account) (b : AccountBody) : Account :=
  { a with
    number := b.number,
    name := b.name,
    description := (match b.description with
      | some d => some d
      | none => a.description),
    type := (match b.type with
      | some t => some t
      | none => a.type) }

/-- The PUT /accounts/:id handler (src/server.js lines 321-345): reject
invalid bodies with 400; if `Account.findOne({ number, _id: { $ne: id } })`
finds a DIFFERENT account holding the requested number, answer 400; else
update the account with the given id, answering 404 when it is absent. -/
def putAccounts (validBody : Bool) (id : String) (b : AccountBody)
    (accounts : List Account) : AccountsResult :=
  if validBody = false then
    { status := 400, msg := some "validation errors", accounts := accounts }
  else
    match accounts.find? (fun a => a.number == b.number && !(a._id == id)) with
    | some _ =>
      { status := 400, msg := some "Account number already exists",
        accounts := accounts }
    | none =>
      match accounts.find? (fun a => a._id == id) with
      | none =>
        { status := 404, msg := some "Account not found", accounts := accounts }
      | some _ =>
        { status := 200, msg := none,
          accounts := accounts.map
            (fun a => if a._id == id then applyAccountUpdate a b else a) }

/-- `findByIdAndUpdate(id, req.body, { new: true })` on a journal entry: a
`$set` of the body's fields onto the stored document.  description, date and
lines are always present (the validators require them); attachments and
trans_id are written exactly when the body carries them. -/
def applyEntryUpdate (e : JournalEntry) (b : EntryBody) : JournalEntry :=
  { e with
    description := b.description,
    date := b.date,
    lines := b.lines,
    attachments := (match b.attachments with
      | some ats => ats
      | none => e.attachments),
    trans_id := (match b.trans_id with
      | some t => t
      | none => e.trans_id) }

/-- Result of the PUT /journal/:id handler: HTTP status, the updated document
returned to the client ({ new: true }), and the collection afterwards. -/
structure PutJournalResult where
  status : Nat
  updated : Option JournalEntry
  entries : List JournalEntry
deriving DecidableEq, Repr

/-- The PUT /journal/:id handler (src/server.js lines 247-274): reject
invalid bodies with 400, then ids failing the 24-hex check with 400; then
`findByIdAndUpdate(id, req.body, { new: true })`: 404 when no document has
the id, otherwise the body's fields are written onto the document and the
updated document is returned. -/
def putJournal (validBody : Bool) (id : String) (b : EntryBody)
    (entries : List JournalEntry) : PutJournalResult :=
  if validBody = false then
    { status := 400, updated := none, entries := entries }
  else if isValidObjectId id = false then
    { status := 400, updated := none, entries := entries }
  else
    match entries.find? (fun e => e._id == id) with
    | none => { status := 404, updated := none, entries := entries }
    | some e =>
      { status := 200, updated := some (applyEntryUpdate e b),
        entries := entries.map
          (fun x => if x._id == id then applyEntryUpdate x b else x) }

/-- One successful, non-concurrent request against the journal collection:
either a creation (POST /journal with a valid body and a working store) or a
deletion (DELETE /journal/:id). -/
inductive JOp where
  | create (b : EntryBody) (newId : String)
  | remove (id : String)
deriving DecidableEq, Repr

/-- Run a sequence of journal operations, returning the final collection and
the list of trans_ids assigned by the creations, in creation order. -/
def runOps : List JOp → List JournalEntry → List JournalEntry × List Int
  | [], st => (st, [])
  | JOp.create b nid :: ops, st =>
    let r := postJournal true none none b nid st
    let rest := runOps ops r.entries
    (rest.1, (match r.tid with | some t => [t] | none => []) ++ rest.2)
  | JOp.remove id :: ops, st =>
    runOps ops (deleteJournal id st).2

/-- A sample journal line used by the concrete witnesses. -/
def sampleLine : EntryLine :=
  { account_no := 1000, account_name := "Cash", account_ref := none,
    debit := 5, credit := 0 }

/-- A sample valid creation body used by the concrete witnesses. -/
def sampleBody : EntryBody :=
  { description := "Opening balance", date := "2024-01-01",
    lines := [sampleLine], attachments := none, trans_id := none }

/-- A sample valid update body carrying a trans_id and attachments. -/
def updateBody : EntryBody :=
  { description := "changed", date := "2025-02-02", lines := [sampleLine],
    attachments := some [], trans_id := some 42 }

/-- A sample stored journal entry used by the concrete witnesses. -/
def entryA : JournalEntry :=
  { _id := "aaaaaaaaaaaaaaaaaaaaaaaa", trans_id := 5, date := "2024-01-01",
    description := "first", attachments := [], lines := [sampleLine] }

/-- A sample stored account used by the concrete witnesses. -/
def acctA : Account :=
  { _id := "eeeeeeeeeeeeeeeeeeeeeeee", number := 1000, name := "Cash",
    description := none, type := some "Asset" }

/-- A sample valid account body whose number matches `acctA`. -/
def sampleAccountBody : AccountBody :=
  { number := 1000, name := "Cash renamed",
    description := some "Bank Account", type := some "Asset" }

/-- Create, create, delete the second entry, create again. -/
def opsA : List JOp :=
  [JOp.create sampleBody "aaaaaaaaaaaaaaaaaaaaaaaa",
   JOp.create sampleBody "bbbbbbbbbbbbbbbbbbbbbbbb",
   JOp.remove "bbbbbbbbbbbbbbbbbbbbbbbb",
   JOp.create sampleBody "cccccccccccccccccccccccc"]

/-! ## Helper lemmas about the allocator -/

/-- The max-query answers `none` exactly on the empty collection. -/
theorem maxTid_eq_none_iff (st : List JournalEntry) :
    maxTid st = none ↔ st = [] := by
  cases st with
  | nil => simp [maxTid]
  | cons e es =>
    simp only [maxTid]
    cases maxTid es <;> simp

/-- A `some` answer of the max-query is a trans_id held by some stored entry
and bounds every stored trans_id from above. -/
theorem maxTid_spec (st : List JournalEntry) (m : Int) (h : maxTid st = some m) :
    (∃ e ∈ st, e.trans_id = m) ∧ ∀ e ∈ st, e.trans_id ≤ m := by
  induction st generalizing m with
  | nil => simp [maxTid] at h
  | cons x xs ih =>
    cases hx : maxTid xs with
    | none =>
      have hxs : xs = [] := (maxTid_eq_none_iff xs).mp hx
      subst hxs
      simp [maxTid] at h
      subst h
      simp
    | some m' =>
      simp only [maxTid, hx, Option.some.injEq] at h
      subst h
      obtain ⟨⟨e0, he0, he0m⟩, hall⟩ := ih m' hx
      constructor
      · rcases le_total x.trans_id m' with hle | hle
        · exact ⟨e0, List.mem_cons_of_mem x he0, by rw [he0m, max_eq_right hle]⟩
        · exact ⟨x, List.mem_cons_self x xs, (max_eq_left hle).symm⟩
      · intro e he
        rcases List.mem_cons.mp he with rfl | he'
        · exact le_max_left _ _
        · exact le_trans (hall e he') (le_max_right _ _)

/-- Appending one entry to the collection updates the max-query answer to
the max of the old answer and the new entry's trans_id. -/
theorem maxTid_append_single (st : List JournalEntry) (e : JournalEntry) :
    maxTid (st ++ [e]) =
      some ((match maxTid st with
        | none => e.trans_id
        | some m => max m e.trans_id)) := by
  induction st with
  | nil => simp [maxTid]
  | cons x xs ih =>
    cases hx : maxTid xs with
    | none =>
      have hxs : xs = [] := (maxTid_eq_none_iff xs).mp hx
      subst hxs
      simp [maxTid, max_comm]
    | some m =>
      have ih2 : maxTid (xs ++ [e]) = some (max m e.trans_id) := by
        rw [ih, hx]
      simp only [List.cons_append, maxTid, List.append_eq, ih2, hx]
      rw [max_assoc]

/-- The allocator's answer on an empty max-query. -/
theorem getNextTid_eq_one (st : List JournalEntry) (h : maxTid st = none) :
    getNextTid st = 1 := by
  unfold getNextTid
  rw [h]

/-- The allocator's answer on a populated max-query. -/
theorem getNextTid_eq_succ (st : List JournalEntry) (m : Int)
    (h : maxTid st = some m) : getNextTid st = m + 1 := by
  unfold getNextTid
  rw [h]

/-- Inserting an entry carrying the freshly allocated trans_id advances the
allocator by exactly one. -/
theorem getNextTid_snoc (st : List JournalEntry) (e : JournalEntry)
    (h : e.trans_id = getNextTid st) :
    getNextTid (st ++ [e]) = getNextTid st + 1 := by
  cases hm : maxTid st with
  | none =>
    have h1 : getNextTid st = 1 := getNextTid_eq_one st hm
    have h2 : maxTid (st ++ [e]) = some 1 := by
      rw [maxTid_append_single, hm]
      rw [h, h1]
    rw [getNextTid_eq_succ (st ++ [e]) 1 h2, h1]
  | some m =>
    have h1 : getNextTid st = m + 1 := getNextTid_eq_succ st m hm
    have he : e.trans_id = m + 1 := by rw [h, h1]
    have h2 : maxTid (st ++ [e]) = some (m + 1) := by
      rw [maxTid_append_single, hm]
      rw [he]
      show some (max m (m + 1)) = some (m + 1)
      rw [max_eq_right (by omega)]
    rw [getNextTid_eq_succ (st ++ [e]) (m + 1) h2, h1]

/-- Running a pure creation sequence assigns the consecutive trans_ids
starting at the allocator's answer for the starting state. -/
theorem runOps_creates (bs : List (EntryBody × String)) (st : List JournalEntry) :
    (runOps (bs.map (fun p => JOp.create p.1 p.2)) st).2
      = (List.range bs.length).map (fun i : Nat => getNextTid st + (i : Int)) := by
  induction bs generalizing st with
  | nil => simp [runOps]
  | cons p bs ih =>
    show (getNextTid st ::
        (runOps (bs.map (fun p => JOp.create p.1 p.2))
          (st ++ [mkEntry p.2 p.1 (getNextTid st)])).2)
      = (List.range (bs.length + 1)).map (fun i : Nat => getNextTid st + (i : Int))
    rw [ih]
    rw [getNextTid_snoc st (mkEntry p.2 p.1 (getNextTid st)) rfl]
    rw [List.range_succ_eq_map]
    simp only [List.map_cons, List.map_map, Nat.cast_zero, add_zero]
    congr 1
    apply List.map_congr_left
    intro i _
    simp only [Function.comp_apply]
    push_cast
    ring

/-! ## Claim theorems -/

/-- C1: the transaction-id allocator returns 1 when the collection contains
no entries, and otherwise returns the maximum existing trans_id plus 1. -/
theorem getNextTid_empty_or_max_succ (st : List JournalEntry) (h : st ≠ []) :
    getNextTid [] = 1 ∧
    ∃ m, maxTid st = some m ∧ (∃ e ∈ st, e.trans_id = m) ∧
      (∀ e ∈ st, e.trans_id ≤ m) ∧ getNextTid st = m + 1 := by
  refine ⟨rfl, ?_⟩
  cases hm : maxTid st with
  | none => exact absurd ((maxTid_eq_none_iff st).mp hm) h
  | some m =>
    obtain ⟨hmem, hle⟩ := maxTid_spec st m hm
    exact ⟨m, rfl, hmem, hle, getNextTid_eq_succ st m hm⟩

/-- C1 witness at a one-entry collection holding trans_id 5. -/
theorem getNextTid_empty_or_max_succ_witness :
    getNextTid [] = 1 ∧
    ∃ m, maxTid [entryA] = some m ∧ (∃ e ∈ [entryA], e.trans_id = m) ∧
      (∀ e ∈ [entryA], e.trans_id ≤ m) ∧ getNextTid [entryA] = m + 1 :=
  getNextTid_empty_or_max_succ [entryA] (by simp)

/-- C2: starting from an empty collection, a sequence of N successful,
non-concurrent creations (no deletions or updates in between) allocates the
trans_ids 1, 2, ..., N in creation order. -/
theorem create_sequence_allocates_one_to_n (bs : List (EntryBody × String)) :
    (runOps (bs.map (fun p => JOp.create p.1 p.2)) []).2
      = (List.range bs.length).map (fun i : Nat => (i : Int) + 1) := by
  rw [runOps_creates]
  apply List.map_congr_left
  intro i _
  have h1 : getNextTid [] = 1 := rfl
  rw [h1]
  ring

/-- C3 counterexample: create, create, delete the second entry, create:
the trans_ids assigned in order are 1, 2, 2 — the third creation reuses a
previously assigned trans_id instead of strictly exceeding it. -/
theorem mixed_ops_reassign_tid :
    (runOps opsA []).2 = [1, 2, 2] ∧
    ¬ List.Pairwise (fun a b => a < b) (runOps opsA []).2 := by
  constructor
  · decide
  · decide

/-- C3 amended: a trans_id assigned at creation strictly exceeds every
trans_id stored in the collection at that moment (hence is unique among the
stored entries); after a deletion, a previously assigned trans_id may be
assigned again. -/
theorem assigned_tid_gt_stored (st : List JournalEntry) (e : JournalEntry)
    (he : e ∈ st) : e.trans_id < getNextTid st := by
  cases hm : maxTid st with
  | none =>
    have hst : st = [] := (maxTid_eq_none_iff st).mp hm
    subst hst
    simp at he
  | some m =>
    obtain ⟨_, hle⟩ := maxTid_spec st m hm
    rw [getNextTid_eq_succ st m hm]
    exact lt_of_le_of_lt (hle e he) (by omega)

/-- C3 amended witness at a one-entry collection. -/
theorem assigned_tid_gt_stored_witness :
    entryA.trans_id < getNextTid [entryA] :=
  assigned_tid_gt_stored [entryA] entryA (by simp)

/-- C4: POST /accounts with a valid body whose number is already stored is
answered 400 "Account number already exists"; nothing is inserted and the
collection — in particular the existing account — is unchanged. -/
theorem postAccounts_duplicate_number_rejected (b : AccountBody) (nid : String)
    (accounts : List Account) (a : Account) (ha : a ∈ accounts)
    (hn : a.number = b.number) :
    (postAccounts true b nid accounts).status = 400 ∧
    (postAccounts true b nid accounts).msg = some "Account number already exists" ∧
    (postAccounts true b nid accounts).accounts = accounts := by
  have hs : (accounts.find? (fun x => x.number == b.number)).isSome := by
    rw [List.find?_isSome]
    exact ⟨a, ha, by simp [hn]⟩
  obtain ⟨x, hx⟩ := Option.isSome_iff_exists.mp hs
  simp [postAccounts, hx]

/-- C4 witness: creating a second account with number 1000. -/
theorem postAccounts_duplicate_number_rejected_witness :
    (postAccounts true sampleAccountBody "ffffffffffffffffffffffff" [acctA]).status = 400 ∧
    (postAccounts true sampleAccountBody "ffffffffffffffffffffffff" [acctA]).msg = some "Account number already exists" ∧
    (postAccounts true sampleAccountBody "ffffffffffffffffffffffff" [acctA]).accounts = [acctA] :=
  postAccounts_duplicate_number_rejected sampleAccountBody
    "ffffffffffffffffffffffff" [acctA] acctA (by simp) (by decide)

/-- C5 counterexample: DELETE with the malformed id "hello" — which
identifies no stored document, the collections being empty — is answered
500 on both handlers (the ObjectId cast error reaches the catch), not
404. -/
theorem delete_malformed_id_returns_500 :
    deleteJournal "hello" [] = (500, []) ∧
    ¬ (deleteJournal "hello" []).1 = 404 ∧
    deleteAccount "hello" [] = (500, []) ∧
    ¬ (deleteAccount "hello" []).1 = 404 := by
  refine ⟨by decide, by decide, by decide, by decide⟩

/-- C5 amended: DELETE /journal/:id and DELETE /accounts/:id answer 404 and
leave the collection unchanged when the id is a well-formed storage
identifier (24 hex characters) that no stored document carries; a malformed
id is instead answered 500 through the cast-error catch. -/
theorem delete_missing_wellformed_id_returns_404 (id : String)
    (entries : List JournalEntry) (accounts : List Account)
    (hid : isValidObjectId id = true)
    (hj : ∀ e ∈ entries, ¬ e._id = id) (ha : ∀ a ∈ accounts, ¬ a._id = id) :
    deleteJournal id entries = (404, entries) ∧
    deleteAccount id accounts = (404, accounts) := by
  have h1 : entries.find? (fun e => e._id == id) = none := by
    rw [List.find?_eq_none]
    intro x hx
    simpa using hj x hx
  have h2 : accounts.find? (fun a => a._id == id) = none := by
    rw [List.find?_eq_none]
    intro x hx
    simpa using ha x hx
  constructor
  · simp [deleteJournal, hid, h1]
  · simp [deleteAccount, hid, h2]

/-- C5 amended witness: deleting an absent well-formed id from one-element
collections. -/
theorem delete_missing_wellformed_id_returns_404_witness :
    deleteJournal "dddddddddddddddddddddddd" [entryA] = (404, [entryA]) ∧
    deleteAccount "dddddddddddddddddddddddd" [acctA] = (404, [acctA]) :=
  delete_missing_wellformed_id_returns_404 "dddddddddddddddddddddddd"
    [entryA] [acctA] (by decide) (by decide) (by decide)

/-- C6: GET /journal/:id with an id that is not exactly 24 hexadecimal
characters is answered 400 and the storage is never queried. -/
theorem getJournalById_malformed_id (id : String) (entries : List JournalEntry)
    (h : isValidObjectId id = false) :
    getJournalById id entries = { status := 400, storageAccessed := false } := by
  simp [getJournalById, h]

/-- C6 witness at the malformed id "hello". -/
theorem getJournalById_malformed_id_witness :
    getJournalById "hello" [entryA] = { status := 400, storageAccessed := false } :=
  getJournalById_malformed_id "hello" [entryA] (by decide)

/-- C7: when the allocator's query or the insert raises a storage error,
POST /journal answers 500, stores nothing, and attempts the query and the
insert at most once each (no retry). -/
theorem postJournal_store_error_500_no_retry (b : EntryBody) (nid : String)
    (st : List JournalEntry) (qe ie : Option String)
    (h : qe.isSome ∨ ie.isSome) :
    (postJournal true qe ie b nid st).status = 500 ∧
    (postJournal true qe ie b nid st).allocAttempts = 1 ∧
    (postJournal true qe ie b nid st).insertAttempts ≤ 1 ∧
    (postJournal true qe ie b nid st).entries = st := by
  cases qe with
  | some m => simp [postJournal]
  | none =>
    cases ie with
    | some m => simp [postJournal]
    | none => simp at h

/-- C7 witness: the allocator query fails on an empty collection. -/
theorem postJournal_store_error_500_no_retry_witness :
    (postJournal true (some "store unreachable") none sampleBody "cccccccccccccccccccccccc" []).status = 500 ∧
    (postJournal true (some "store unreachable") none sampleBody "cccccccccccccccccccccccc" []).allocAttempts = 1 ∧
    (postJournal true (some "store unreachable") none sampleBody "cccccccccccccccccccccccc" []).insertAttempts ≤ 1 ∧
    (postJournal true (some "store unreachable") none sampleBody "cccccccccccccccccccccccc" []).entries = [] :=
  postJournal_store_error_500_no_retry sampleBody "cccccccccccccccccccccccc"
    [] (some "store unreachable") none (Or.inl rfl)

/-- C8: an insert failure of POST /journal (such as the duplicate-key error
the unique trans_id index raises when two concurrent creations computed the
same id) is answered 500 carrying the raw store message, and POST /journal
never answers 400 once the body passed validation — a 400 uniqueness error
exists only on the accounts side. -/
theorem postJournal_conflict_is_500_raw (b : EntryBody) (nid : String)
    (st : List JournalEntry) (m : String) :
    (postJournal true none (some m) b nid st).status = 500 ∧
    (postJournal true none (some m) b nid st).body = some m ∧
    ∀ qe ie : Option String, ¬ (postJournal true qe ie b nid st).status = 400 := by
  refine ⟨by simp [postJournal], by simp [postJournal], ?_⟩
  intro qe ie
  cases qe <;> cases ie <;> simp [postJournal]

/-- C8 witness at a concrete duplicate-key message. -/
theorem postJournal_conflict_is_500_raw_witness :
    (postJournal true none (some "E11000 duplicate key error") sampleBody "cccccccccccccccccccccccc" []).status = 500 ∧
    (postJournal true none (some "E11000 duplicate key error") sampleBody "cccccccccccccccccccccccc" []).body = some "E11000 duplicate key error" ∧
    ¬ (postJournal true none (some "E11000 duplicate key error") sampleBody "cccccccccccccccccccccccc" []).status = 400 :=
  ⟨(postJournal_conflict_is_500_raw sampleBody "cccccccccccccccccccccccc" [] "E11000 duplicate key error").1,
   (postJournal_conflict_is_500_raw sampleBody "cccccccccccccccccccccccc" [] "E11000 duplicate key error").2.1,
   (postJournal_conflict_is_500_raw sampleBody "cccccccccccccccccccccccc" [] "E11000 duplicate key error").2.2
     none (some "E11000 duplicate key error")⟩

/-- C9: PUT /accounts/:id whose requested number is held by no account other
than the one being updated passes the duplicate check and succeeds; with a
valid body it answers 400 only when a different account already holds the
requested number. -/
theorem putAccounts_keep_own_number_succeeds (b : AccountBody) (id : String)
    (accounts : List Account)
    (hex : ∃ a ∈ accounts, a._id = id)
    (hown : ∀ a ∈ accounts, a.number = b.number → a._id = id) :
    (putAccounts true id b accounts).status = 200 ∧
    (putAccounts true id b accounts).accounts =
      accounts.map (fun a => if a._id == id then applyAccountUpdate a b else a) ∧
    (∀ acc : List Account, (putAccounts true id b acc).status = 400 →
      ∃ a ∈ acc, a.number = b.number ∧ ¬ a._id = id) := by
  have hdup : accounts.find?
      (fun a => a.number == b.number && !(a._id == id)) = none := by
    rw [List.find?_eq_none]
    intro a hamem hcontra
    rw [Bool.and_eq_true] at hcontra
    have h1 : a.number = b.number := by simpa using hcontra.1
    have h2 : ¬ a._id = id := by simpa using hcontra.2
    exact h2 (hown a hamem h1)
  have hfind : (accounts.find? (fun a => a._id == id)).isSome := by
    rw [List.find?_isSome]
    obtain ⟨a, ha, haid⟩ := hex
    exact ⟨a, ha, by simp [haid]⟩
  obtain ⟨x, hx⟩ := Option.isSome_iff_exists.mp hfind
  refine ⟨by simp [putAccounts, hdup, hx], by simp [putAccounts, hdup, hx], ?_⟩
  intro acc h400
  cases hd : acc.find? (fun a => a.number == b.number && !(a._id == id)) with
  | none =>
    exfalso
    cases hfa : acc.find? (fun a => a._id == id) with
    | none => simp [putAccounts, hd, hfa] at h400
    | some y => simp [putAccounts, hd, hfa] at h400
  | some a =>
    have hmem := List.mem_of_find?_eq_some hd
    have hp := List.find?_some hd
    rw [Bool.and_eq_true] at hp
    have h1 : a.number = b.number := by simpa using hp.1
    have h2 : ¬ a._id = id := by simpa using hp.2
    exact ⟨a, hmem, h1, h2⟩

/-- C9 witness: updating the single stored account while keeping its own
number 1000 succeeds. -/
theorem putAccounts_keep_own_number_succeeds_witness :
    (putAccounts true "eeeeeeeeeeeeeeeeeeeeeeee" sampleAccountBody [acctA]).status = 200 ∧
    (putAccounts true "eeeeeeeeeeeeeeeeeeeeeeee" sampleAccountBody [acctA]).accounts =
      [acctA].map (fun a => if a._id == "eeeeeeeeeeeeeeeeeeeeeeee" then applyAccountUpdate a sampleAccountBody else a) :=
  ⟨(putAccounts_keep_own_number_succeeds sampleAccountBody "eeeeeeeeeeeeeeeeeeeeeeee"
      [acctA] ⟨acctA, by simp, rfl⟩ (by decide)).1,
   (putAccounts_keep_own_number_succeeds sampleAccountBody "eeeeeeeeeeeeeeeeeeeeeeee"
      [acctA] ⟨acctA, by simp, rfl⟩ (by decide)).2.1⟩

/-- C10: a successful PUT /journal/:id writes every field present in the
request body onto the stored entry — description, date and lines always,
attachments and trans_id whenever the body carries them — so no field, in
particular not trans_id, is protected from modification. -/
theorem putJournal_writes_every_body_field (b : EntryBody) (id : String)
    (entries : List JournalEntry) (e : JournalEntry)
    (hid : isValidObjectId id = true)
    (hfind : entries.find? (fun x => x._id == id) = some e) :
    (putJournal true id b entries).status = 200 ∧
    (putJournal true id b entries).updated = some (applyEntryUpdate e b) ∧
    (applyEntryUpdate e b).description = b.description ∧
    (applyEntryUpdate e b).date = b.date ∧
    (applyEntryUpdate e b).lines = b.lines ∧
    (∀ t, b.trans_id = some t → (applyEntryUpdate e b).trans_id = t) ∧
    (∀ ats, b.attachments = some ats → (applyEntryUpdate e b).attachments = ats) := by
  refine ⟨?_, ?_, rfl, rfl, rfl, ?_, ?_⟩
  · simp [putJournal, hid, hfind]
  · simp [putJournal, hid, hfind]
  · intro t ht
    simp [applyEntryUpdate, ht]
  · intro ats hats
    simp [applyEntryUpdate, hats]

/-- C10 witness: updating the single stored entry with a body that carries
trans_id 42 and an empty attachments list overwrites both. -/
theorem putJournal_writes_every_body_field_witness :
    (putJournal true "aaaaaaaaaaaaaaaaaaaaaaaa" updateBody [entryA]).status = 200 ∧
    (putJournal true "aaaaaaaaaaaaaaaaaaaaaaaa" updateBody [entryA]).updated =
      some (applyEntryUpdate entryA updateBody) ∧
    (applyEntryUpdate entryA updateBody).trans_id = 42 ∧
    (applyEntryUpdate entryA updateBody).attachments = [] ∧
    (applyEntryUpdate entryA updateBody).description = updateBody.description :=
  ⟨(putJournal_writes_every_body_field updateBody "aaaaaaaaaaaaaaaaaaaaaaaa"
      [entryA] entryA (by decide) (by decide)).1,
   (putJournal_writes_every_body_field updateBody "aaaaaaaaaaaaaaaaaaaaaaaa"
      [entryA] entryA (by decide) (by decide)).2.1,
   (putJournal_writes_every_body_field updateBody "aaaaaaaaaaaaaaaaaaaaaaaa"
      [entryA] entryA (by decide) (by decide)).2.2.2.2.2.1 42 rfl,
   (putJournal_writes_every_body_field updateBody "aaaaaaaaaaaaaaaaaaaaaaaa"
      [entryA] entryA (by decide) (by decide)).2.2.2.2.2.2 [] rfl,
   (putJournal_writes_every_body_field updateBody "aaaaaaaaaaaaaaaaaaaaaaaa"
      [entryA] entryA (by decide) (by decide)).2.2.1⟩
